import Mathlib

/-!
# Verification of the IPC.jl binding-descriptor generator and SWL wrappers

Shallow embedding of `src/deps/gendeps.c` (the ABI introspection and
binding-descriptor generator) and `src/swl/src/ipc.c` (the thin System V
shared-memory wrapper library), together with proofs of the specified
properties.

The generator is modelled as a pure function of a `Platform` value that
records the results of every compile-time and runtime query the C program
performs (preprocessor `#ifdef` tests, macro constant values, all-bits-set
signedness probes, `sizeof`, `offsetof`, and the two `sysconf` calls).  The
emitted output is modelled as a list of structured lines mirroring the
`fprintf` calls of the source, and the emission order follows the source
text line by line.
-/

namespace IPC

/-- Result of probing a C integer type or lvalue: its storage size in bytes
(`sizeof`) and whether the all-bits-set pattern compares below zero
(signedness), as computed by the `SET_ALL_BITS`/`IS_SIGNED` macros of
`gendeps.c`. -/
structure CType where
  size : Nat
  signed : Bool
deriving DecidableEq, Repr

/-- Everything the generator reads from the host: preprocessor definedness,
macro constant values, type probes, field probes, `offsetof`, `sizeof`, and
the two `sysconf` runtime queries (`_SC_PAGESIZE`, `_SC_SEM_VALUE_MAX`). -/
structure Platform where
  /-- whether a macro name is `#define`d by the host headers -/
  defines : String → Bool
  /-- integer value of a macro constant provided by the host headers -/
  constVal : String → Int
  /-- all-bits-set probe of a named C type (`DEF_TYPEOF_TYPE`) -/
  ctype : String → CType
  /-- all-bits-set probe of a struct field lvalue (`DEF_TYPEOF_LVALUE`) -/
  fieldType : String → String → CType
  /-- `offsetof(struct, field)` (`OFFSET_OF` macro) -/
  offsetOf : String → String → Nat
  /-- `sizeof` of a named type (`DEF_SIZEOF_TYPE`, `setofbits` call sites) -/
  sizeOf : String → Nat
  /-- `sysconf(_SC_PAGESIZE)` -/
  pagesize : Int
  /-- `sysconf(_SC_SEM_VALUE_MAX)` -/
  semValueMax : Int

/-- One line of the generated Julia script.  Each constructor mirrors one of
the `fprintf` shapes of `gendeps.c`: fixed text (`PUTS`), a constant
definition (`DEF_CONST` and similar one-value lines), a probed type alias
(`DEF_TYPEOF_TYPE` / `DEF_TYPEOF_LVALUE`: `const _typeof_<name> = [U]Int<bits>`),
a field offset (`DEF_OFFSETOF`), a type size (`DEF_SIZEOF_TYPE`) and an
`NTuple` tiling line (`setofbits`). -/
inductive Jline where
  | text (s : String)
  | constInt (name : String) (v : Int)
  | typeAlias (name : String) (signed : Bool) (bits : Nat)
  | offsetDef (name : String) (v : Nat)
  | sizeDef (name : String) (v : Nat)
  | ntupleDef (name : String) (nitems : Nat) (isunsigned : Bool) (nbits : Nat)
deriving DecidableEq, Repr

/-- Tiling of an opaque byte size into machine words, the output of
`setofbits`. -/
structure BlobShape where
  nitems : Nat
  nbits : Nat
  isunsigned : Bool
deriving DecidableEq, Repr

/-- `setofbits` from `gendeps.c` (lines 107-127): decompose a byte size into
the largest machine-word tiles that divide it evenly, trying 8-byte words,
then 4, 2, 1. -/
def setofbits (size : Nat) (isunsigned : Bool) : BlobShape :=
  if size % 8 = 0 then ⟨size / 8, 64, isunsigned⟩
  else if size % 4 = 0 then ⟨size / 4, 32, isunsigned⟩
  else if size % 2 = 0 then ⟨size / 2, 16, isunsigned⟩
  else ⟨size, 8, isunsigned⟩

/-- The `NTuple` line printed by `setofbits`. -/
def setofbitsLine (p : Platform) (name : String) (tyname : String)
    (isunsigned : Bool) : Jline :=
  let r := setofbits (p.sizeOf tyname) isunsigned
  .ntupleDef name r.nitems r.isunsigned r.nbits

/-- The source of an all-bits-set probe: either a named type
(`DEF_TYPEOF_TYPE`) or a struct field lvalue (`DEF_TYPEOF_LVALUE`). -/
inductive ProbeSrc where
  | ty (name : String)
  | fld (struct field : String)
deriving DecidableEq, Repr

/-- Evaluate a probe source on a platform. -/
def lookupProbe (p : Platform) : ProbeSrc → CType
  | .ty n => p.ctype n
  | .fld s f => p.fieldType s f

/-- The `const _typeof_<label> = [U]Int<bits>` line produced by the probing
macros: signedness comes from the all-bits-set comparison, width is eight
times the storage size. -/
def probeAlias (label : String) (ct : CType) : Jline :=
  .typeAlias label ct.signed (8 * ct.size)

/-- One emission step of the generator, mirroring one macro invocation (or
one special `fprintf`) in the body of `main` in `gendeps.c`. -/
inductive Emit where
  /-- `PUTS(str)`: a fixed text line -/
  | etext (s : String)
  /-- unguarded `DEF_CONST(name, fmt)` (the header must define `name`) -/
  | econst (name : String)
  /-- `DEF_TYPEOF_TYPE` / `DEF_TYPEOF_LVALUE`: probe-based type alias -/
  | eprobe (label : String) (src : ProbeSrc)
  /-- `DEF_OFFSETOF(label, struct, field)` -/
  | eoffset (label struct field : String)
  /-- `DEF_SIZEOF_TYPE(label, type)` -/
  | esize (label tyname : String)
  /-- `#ifdef guard` ... `DEF_CONST(name, fmt)` ... `#endif` -/
  | eguarded (guard name : String)
  /-- `#ifndef name # define name dflt #endif` followed by `DEF_CONST(name)`:
      the line is always emitted, with a built-in fallback value when the
      platform does not define the symbol -/
  | efallback (name : String) (dflt : Int)
  /-- `PAGE_SIZE = %ld` from `sysconf(_SC_PAGESIZE)` -/
  | epagesize
  /-- the `SEM_VALUE_MAX` logic of lines 395-412 -/
  | esemvaluemax
  /-- `const _typeof_sigval_t = Int%d` (line 451-452): width from `sizeof`,
      signedness fixed to signed without a probe -/
  | esigval
  /-- `const _typeof_sigaction_flags = UInt%d` (lines 468-470): width from
      `sizeof(sa.sa_flags)`, signedness forced unsigned without a probe -/
  | esaflags
  /-- `setofbits(output, label, sizeof(tyname), isunsigned)` -/
  | ebits (label tyname : String) (isunsigned : Bool)
  /-- a `PUTS` header line that sits inside an `#ifdef guard` block -/
  | eguardtext (guard : String) (s : String)
deriving DecidableEq, Repr

/-- The value printed for `SEM_VALUE_MAX` (`gendeps.c` lines 395-411):
start from -1, take the `sysconf` result when `_SC_SEM_VALUE_MAX` is
available, otherwise fall back to the header's `SEM_VALUE_MAX` when
defined. -/
def semValueMaxVal (p : Platform) : Int :=
  let v : Int := if p.defines "_SC_SEM_VALUE_MAX" then p.semValueMax else -1
  if v < 0 ∧ p.defines "SEM_VALUE_MAX" then p.constVal "SEM_VALUE_MAX" else v

/-- Render one emission step on a given platform into zero or more output
lines, following the corresponding `fprintf` calls of `gendeps.c`. -/
def render (p : Platform) : Emit → List Jline
  | .etext s => [.text s]
  | .econst n => [.constInt n (p.constVal n)]
  | .eprobe lbl src => [probeAlias lbl (lookupProbe p src)]
  | .eoffset lbl s f => [.offsetDef lbl (p.offsetOf s f)]
  | .esize lbl t => [.sizeDef lbl (p.sizeOf t)]
  | .eguarded g n => if p.defines g then [.constInt n (p.constVal n)] else []
  | .efallback n d =>
      [.constInt n (if p.defines n then p.constVal n else d)]
  | .epagesize => [.constInt "PAGE_SIZE" p.pagesize]
  | .esemvaluemax =>
      if semValueMaxVal p > 0 then [.constInt "SEM_VALUE_MAX" (semValueMaxVal p)]
      else [.text "const SEM_VALUE_MAX = typemax(Cuint)"]
  | .esigval => [.typeAlias "sigval_t" true (8 * p.sizeOf "sigval_t")]
  | .esaflags =>
      [.typeAlias "sigaction_flags" false
        (8 * (p.fieldType "struct sigaction" "sa_flags").size)]
  | .ebits lbl t u => [setofbitsLine p lbl t u]
  | .eguardtext g s => if p.defines g then [.text s] else []

/-- Emission steps of `main` in `gendeps.c`, first part: the opening `PUTS`
lines and the standard C type probes (lines 146-180). -/
def items1a : List Emit := [
  .etext "#",
  .etext "# deps.jl --",
  .etext "#",
  .etext "# Definitions for the IPC.jl package.",
  .etext "#",
  .etext "# *IMPORTANT* This file has been automatically generated, do not edit it",
  .etext "#             directly but rather modify the source in `../deps/gendeps.c`.",
  .etext "#",
  .etext "#------------------------------------------------------------------------------",
  .etext "#",
  .etext "# This file is part of IPC.jl released under the MIT \"expat\" license.",
  .etext "# Copyright (C) 2016-2019, Éric Thiébaut (https://github.com/emmt/IPC.jl).",
  .etext "#",
  .etext "",
  .etext "# Standard codes returned by many functions of the C library:",
  .etext "const SUCCESS = Cint( 0)",
  .etext "const FAILURE = Cint(-1)",
  .etext "\n# Some standard C-types:",
  .eprobe "time_t" (.ty "time_t"),
  .eprobe "clock_t" (.ty "clock_t"),
  .eprobe "size_t" (.ty "size_t"),
  .eprobe "ssize_t" (.ty "ssize_t"),
  .eprobe "mode_t" (.ty "mode_t"),
  .eprobe "dev_t" (.ty "dev_t"),
  .eprobe "ino_t" (.ty "ino_t"),
  .eprobe "pid_t" (.ty "pid_t"),
  .eprobe "uid_t" (.ty "uid_t"),
  .eprobe "gid_t" (.ty "gid_t"),
  .eprobe "key_t" (.ty "key_t"),
  .eprobe "nlink_t" (.ty "nlink_t"),
  .eprobe "shmatt_t" (.ty "shmatt_t"),
  .eprobe "off_t" (.ty "off_t"),
  .eprobe "blksize_t" (.ty "blksize_t"),
  .eprobe "blkcnt_t" (.ty "blkcnt_t")]

/-- Emission steps, second part: open flags, permission bits, and the IPC
and mapping constants, through the section header printed just before the
time-field checks (lines 182-244). -/
def items1b : List Emit := [
  .etext "\n# Bits for creating/opening a file:",
  .econst "O_RDONLY", .econst "O_WRONLY", .econst "O_RDWR",
  .econst "O_CREAT", .econst "O_EXCL", .econst "O_TRUNC",
  .etext "\n# Bits for file permissions:",
  .econst "S_IRWXU", .econst "S_IRUSR", .econst "S_IWUSR", .econst "S_IXUSR",
  .econst "S_IRWXG", .econst "S_IRGRP", .econst "S_IWGRP", .econst "S_IXGRP",
  .econst "S_IRWXO", .econst "S_IROTH", .econst "S_IWOTH", .econst "S_IXOTH",
  .etext "\n# Argument for `lseek`:",
  .econst "SEEK_SET", .econst "SEEK_CUR", .econst "SEEK_END",
  .etext "\n# Commands for `shmctl`, `semctl` and `msgctl`:",
  .econst "IPC_STAT", .econst "IPC_SET", .econst "IPC_RMID",
  .etext "\n# Bits for `shmget`:",
  .econst "IPC_CREAT", .econst "IPC_EXCL",
  .etext "\n# Flags for `shmdt`:",
  .eguarded "SHM_EXEC" "SHM_EXEC",
  .econst "SHM_RDONLY",
  .eguarded "SHM_EXEC" "SHM_REMAP",
  .etext "\n# Constants for `mmap`, `msync`, etc.:",
  .econst "PROT_NONE", .econst "PROT_READ", .econst "PROT_WRITE",
  .econst "PROT_EXEC",
  .econst "MAP_SHARED", .econst "MAP_PRIVATE", .econst "MAP_ANONYMOUS",
  .econst "MAP_FIXED",
  .econst "MAP_FAILED",
  .econst "MS_ASYNC", .econst "MS_SYNC", .econst "MS_INVALIDATE",
  .etext "\n# Memory page size:",
  .epagesize,
  .etext "\n# Fields of `struct timeval` and `struct timespec`:"]

/-- Lines 146-244 of `main`: everything written before the
`struct timeval`/`struct timespec` consistency checks. -/
def items1 : List Emit := items1a ++ items1b

/-- Emission steps from just after the time-field checks through the
`struct stat` section (lines 268-303). -/
def items2a : List Emit := [
  .eprobe "timeval_sec" (.fld "struct timeval" "tv_sec"),
  .eprobe "timeval_usec" (.fld "struct timeval" "tv_usec"),
  .eprobe "timespec_sec" (.fld "struct timespec" "tv_sec"),
  .eprobe "timespec_nsec" (.fld "struct timespec" "tv_nsec"),
  .etext "\n# Definitions for the POSIX `clock_*` functions:",
  .eprobe "clockid_t" (.ty "clockid_t"),
  .efallback "CLOCK_REALTIME" 0,
  .efallback "CLOCK_MONOTONIC" 1,
  .etext "\n# Sizes and constants for POSIX thread functions:",
  .esize "pthread_mutex_t" "pthread_mutex_t",
  .esize "pthread_mutexattr_t" "pthread_mutexattr_t",
  .esize "pthread_cond_t" "pthread_cond_t",
  .esize "pthread_condattr_t" "pthread_condattr_t",
  .esize "pthread_rwlock_t" "pthread_rwlock_t",
  .esize "pthread_rwlockattr_t" "pthread_rwlockattr_t",
  .econst "PTHREAD_PROCESS_SHARED",
  .econst "PTHREAD_PROCESS_PRIVATE",
  .etext "\n# Definitions for `struct stat`:",
  .esize "struct_stat" "struct stat",
  .eoffset "stat_dev" "struct stat" "st_dev",
  .eoffset "stat_ino" "struct stat" "st_ino",
  .eoffset "stat_mode" "struct stat" "st_mode",
  .eoffset "stat_nlink" "struct stat" "st_nlink",
  .eoffset "stat_uid" "struct stat" "st_uid",
  .eoffset "stat_gid" "struct stat" "st_gid",
  .eoffset "stat_rdev" "struct stat" "st_rdev",
  .eoffset "stat_size" "struct stat" "st_size",
  .eoffset "stat_blksize" "struct stat" "st_blksize",
  .eoffset "stat_blocks" "struct stat" "st_blocks",
  .eoffset "stat_atime" "struct stat" "st_atim",
  .eoffset "stat_mtime" "struct stat" "st_mtim",
  .eoffset "stat_ctime" "struct stat" "st_ctim"]

/-- The `struct shmid_ds` and `struct semid_ds` sections (lines 305-342). -/
def items2b : List Emit := [
  .etext "\n# Definitions for `struct shmid_ds`:",
  .esize "struct_shmid_ds" "struct shmid_ds",
  .eoffset "shm_perm_uid" "struct shmid_ds" "shm_perm.uid",
  .eoffset "shm_perm_gid" "struct shmid_ds" "shm_perm.gid",
  .eoffset "shm_perm_cuid" "struct shmid_ds" "shm_perm.cuid",
  .eoffset "shm_perm_cgid" "struct shmid_ds" "shm_perm.cgid",
  .eoffset "shm_perm_mode" "struct shmid_ds" "shm_perm.mode",
  .eoffset "shm_segsz" "struct shmid_ds" "shm_segsz",
  .eoffset "shm_atime" "struct shmid_ds" "shm_atime",
  .eoffset "shm_dtime" "struct shmid_ds" "shm_dtime",
  .eoffset "shm_ctime" "struct shmid_ds" "shm_ctime",
  .eoffset "shm_cpid" "struct shmid_ds" "shm_cpid",
  .eoffset "shm_lpid" "struct shmid_ds" "shm_lpid",
  .eoffset "shm_nattch" "struct shmid_ds" "shm_nattch",
  .eprobe "shm_segsz" (.fld "struct shmid_ds" "shm_segsz"),
  .eprobe "shm_perm_mode" (.fld "struct shmid_ds" "shm_perm.mode"),
  .etext "\n# Definitions for `struct semid_ds`:",
  .esize "struct_semid_ds" "struct semid_ds",
  .eoffset "sem_perm_uid" "struct semid_ds" "sem_perm.uid",
  .eoffset "sem_perm_gid" "struct semid_ds" "sem_perm.gid",
  .eoffset "sem_perm_cuid" "struct semid_ds" "sem_perm.cuid",
  .eoffset "sem_perm_cgid" "struct semid_ds" "sem_perm.cgid",
  .eoffset "sem_perm_mode" "struct semid_ds" "sem_perm.mode",
  .eoffset "sem_otime" "struct semid_ds" "sem_otime",
  .eoffset "sem_ctime" "struct semid_ds" "sem_ctime",
  .eoffset "sem_nsems" "struct semid_ds" "sem_nsems",
  .eprobe "sem_nsems" (.fld "struct semid_ds" "sem_nsems"),
  .eprobe "sem_perm_mode" (.fld "struct semid_ds" "sem_perm.mode"),
  .etext "\n# Special IPC key:",
  .econst "IPC_PRIVATE"]

/-- The semaphore, real-time-signal and `struct sigaction` sections, through
the `siginfo_t` section header printed just before the `siginfo_t` size
checks (lines 344-487). -/
def items2c : List Emit := [
  .etext "\n# Flags for `semctl`:",
  .econst "GETALL", .econst "GETNCNT", .econst "GETPID", .econst "GETVAL",
  .econst "GETZCNT", .econst "SETALL", .econst "SETVAL",
  .etext "\n# Flags for `semop`:",
  .econst "IPC_NOWAIT", .econst "SEM_UNDO",
  .etext "\n# Other constants for System V Semaphore Sets:",
  .efallback "SEMVMX" 32767,
  .eguarded "SEMMNI" "SEMMNI",
  .eguarded "SEMMSL" "SEMMSL",
  .eguarded "SEMMNS" "SEMMNS",
  .eguarded "SEMOPM" "SEMOPM",
  .eguarded "SEMAEM" "SEMAEM",
  .etext "\n# Constants for `struct sembuf`:",
  .esize "struct_sembuf" "struct sembuf",
  .eoffset "sem_num" "struct sembuf" "sem_num",
  .eoffset "sem_op" "struct sembuf" "sem_op",
  .eoffset "sem_flg" "struct sembuf" "sem_flg",
  .eprobe "sem_num" (.fld "struct sembuf" "sem_num"),
  .eprobe "sem_op" (.fld "struct sembuf" "sem_op"),
  .eprobe "sem_flg" (.fld "struct sembuf" "sem_flg"),
  .etext "\n# Definitions for POSIX semaphores:",
  .esize "sem_t" "sem_t",
  .econst "SEM_FAILED",
  .esemvaluemax]

/-- The real-time-signal and `struct sigaction` sections, through the
`siginfo_t` section header (lines 435-487). -/
def items2d : List Emit := [
  .etext "\n# Definitions for real-time signals:",
  .eguarded "SIGRTMIN" "SIGRTMIN",
  .eguarded "SIGRTMAX" "SIGRTMAX",
  .eguarded "SIG_BLOCK" "SIG_BLOCK",
  .eguarded "SIG_UNBLOCK" "SIG_UNBLOCK",
  .eguarded "SIG_SETMASK" "SIG_SETMASK",
  .esigval,
  .ebits "_typeof_sigset" "sigset_t" true,
  .esize "sigset" "sigset_t",
  .etext "\n# Definitions for `struct sigaction`:",
  .esize "sigaction" "struct sigaction",
  .eoffset "sigaction_handler" "struct sigaction" "sa_handler",
  .eoffset "sigaction_action" "struct sigaction" "sa_sigaction",
  .eoffset "sigaction_mask" "struct sigaction" "sa_mask",
  .eoffset "sigaction_flags" "struct sigaction" "sa_flags",
  .esaflags,
  .econst "SA_SIGINFO", .econst "SA_NOCLDSTOP", .econst "SA_NOCLDWAIT",
  .econst "SA_NODEFER", .econst "SA_ONSTACK", .econst "SA_RESETHAND",
  .econst "SA_RESTART",
  .econst "SIG_DFL", .econst "SIG_IGN",
  .etext "\n# Definitions for `siginfo_t`:"]

/-- Lines 268-487 of `main`: everything written between the time-field
checks and the `siginfo_t` size checks. -/
def items2 : List Emit := items2a ++ items2b ++ items2c ++ items2d

/-- Emission steps after the `siginfo_t` size checks: the `siginfo_t`
layout and the `si_code` values for regular signals and SIGILL
(lines 537-608). -/
def items3a : List Emit := [
  .ebits "_typeof_siginfo" "siginfo_t" true,
  .esize "siginfo" "siginfo_t",
  .eoffset "siginfo_signo" "siginfo_t" "si_signo",
  .eoffset "siginfo_code" "siginfo_t" "si_code",
  .eoffset "siginfo_errno" "siginfo_t" "si_errno",
  .eoffset "siginfo_pid" "siginfo_t" "si_pid",
  .eoffset "siginfo_uid" "siginfo_t" "si_uid",
  .eoffset "siginfo_status" "siginfo_t" "si_status",
  .eoffset "siginfo_value" "siginfo_t" "si_value",
  .eoffset "siginfo_addr" "siginfo_t" "si_addr",
  .eoffset "siginfo_band" "siginfo_t" "si_band",
  .etext "\n# Possible `si_code` values for regular signals:",
  .eguarded "SI_USER" "SI_USER",
  .eguarded "SI_KERNEL" "SI_KERNEL",
  .eguarded "SI_QUEUE" "SI_QUEUE",
  .eguarded "SI_TIMER" "SI_TIMER",
  .eguarded "SI_MESGQ" "SI_MESGQ",
  .eguarded "SI_ASYNCIO" "SI_ASYNCIO",
  .eguarded "SI_SIGIO" "SI_SIGIO",
  .eguarded "SI_TKILL" "SI_TKILL",
  .etext "\n# Possible `si_code` values for a SIGILL signal:",
  .eguarded "ILL_ILLOPC" "ILL_ILLOPC",
  .eguarded "ILL_ILLOPN" "ILL_ILLOPN",
  .eguarded "ILL_ILLADR" "ILL_ILLADR",
  .eguarded "ILL_ILLTRP" "ILL_ILLTRP",
  .eguarded "ILL_PRVOPC" "ILL_PRVOPC",
  .eguarded "ILL_PRVREG" "ILL_PRVREG",
  .eguarded "ILL_COPROC" "ILL_COPROC",
  .eguarded "ILL_BADSTK" "ILL_BADSTK"]

/-- The `si_code` values for SIGFPE through SIGSYS (lines 610-718). -/
def items3b : List Emit := [
  .etext "\n# Possible `si_code` values for a SIGFPE signal:",
  .eguarded "FPE_INTDIV" "FPE_INTDIV",
  .eguarded "FPE_INTOVF" "FPE_INTOVF",
  .eguarded "FPE_FLTDIV" "FPE_FLTDIV",
  .eguarded "FPE_FLTOVF" "FPE_FLTOVF",
  .eguarded "FPE_FLTUND" "FPE_FLTUND",
  .eguarded "FPE_FLTRES" "FPE_FLTRES",
  .eguarded "FPE_FLTINV" "FPE_FLTINV",
  .eguarded "FPE_FLTSUB" "FPE_FLTSUB",
  .etext "\n# Possible `si_code` values for a SIGSEGV signal:",
  .eguarded "SEGV_MAPERR" "SEGV_MAPERR",
  .eguarded "SEGV_ACCERR" "SEGV_ACCERR",
  .etext "\n# Possible `si_code` values for a SIGBUS signal:",
  .eguarded "BUS_ADRALN" "BUS_ADRALN",
  .eguarded "BUS_ADRERR" "BUS_ADRERR",
  .eguarded "BUS_OBJERR" "BUS_OBJERR",
  .eguarded "BUS_MCEERR_AR" "BUS_MCEERR_AR",
  .eguarded "BUS_MCEERR_AO" "BUS_MCEERR_AO",
  .etext "\n# Possible `si_code` values for a SIGTRAP signal:",
  .eguarded "TRAP_BRKPT" "TRAP_BRKPT",
  .eguarded "TRAP_TRACE" "TRAP_TRACE",
  .eguarded "TRAP_BRANCH" "TRAP_BRANCH",
  .eguarded "TRAP_HWBKPT" "TRAP_HWBKPT",
  .etext "\n# Possible `si_code` values for a SIGCHLD signal:",
  .eguarded "CLD_EXITED" "CLD_EXITED",
  .eguarded "CLD_KILLED" "CLD_KILLED",
  .eguarded "CLD_DUMPED" "CLD_DUMPED",
  .eguarded "CLD_TRAPPED" "CLD_TRAPPED",
  .eguarded "CLD_STOPPED" "CLD_STOPPED",
  .eguarded "CLD_CONTINUED" "CLD_CONTINUED",
  .etext "\n# Possible `si_code` values for a SIGIO/SIGPOLL signal:",
  .eguarded "POLL_IN" "POLL_IN",
  .eguarded "POLL_OUT" "POLL_OUT",
  .eguarded "POLL_MSG" "POLL_MSG",
  .eguarded "POLL_ERR" "POLL_ERR",
  .eguarded "POLL_PRI" "POLL_PRI",
  .eguarded "POLL_HUP" "POLL_HUP",
  .eguardtext "SYS_SECCOMP" "\n# Possible `si_code` value for a SIGSYS signal:",
  .eguarded "SYS_SECCOMP" "SYS_SECCOMP"]

/-- The predefined signal numbers (lines 720-834). -/
def items3c : List Emit := [
  .etext "\n# Predefined signal numbers:",
  .eguarded "SIGHUP" "SIGHUP",
  .eguarded "SIGINT" "SIGINT",
  .eguarded "SIGQUIT" "SIGQUIT",
  .eguarded "SIGILL" "SIGILL",
  .eguarded "SIGABRT" "SIGABRT",
  .eguarded "SIGFPE" "SIGFPE",
  .eguarded "SIGKILL" "SIGKILL",
  .eguarded "SIGSEGV" "SIGSEGV",
  .eguarded "SIGPIPE" "SIGPIPE",
  .eguarded "SIGALRM" "SIGALRM",
  .eguarded "SIGTERM" "SIGTERM",
  .eguarded "SIGUSR" "SIGUSR1",
  .eguarded "SIGUSR" "SIGUSR2",
  .eguarded "SIGCHLD" "SIGCHLD",
  .eguarded "SIGCONT" "SIGCONT",
  .eguarded "SIGSTOP" "SIGSTOP",
  .eguarded "SIGTSTP" "SIGTSTP",
  .eguarded "SIGTTIN" "SIGTTIN",
  .eguarded "SIGTTOU" "SIGTTOU",
  .eguarded "SIGBUS" "SIGBUS",
  .eguarded "SIGPOLL" "SIGPOLL",
  .eguarded "SIGPROF" "SIGPROF",
  .eguarded "SIGSYS" "SIGSYS",
  .eguarded "SIGTRAP" "SIGTRAP",
  .eguarded "SIGURG" "SIGURG",
  .eguarded "SIGVTALRM" "SIGVTALRM",
  .eguarded "SIGXCPU" "SIGXCPU",
  .eguarded "SIGXFSZ" "SIGXFSZ",
  .eguarded "SIGIOT" "SIGIOT",
  .eguarded "SIGEMT" "SIGEMT",
  .eguarded "SIGSTKFLT" "SIGSTKFLT",
  .eguarded "SIGIO" "SIGIO",
  .eguarded "SIGCLD" "SIGCLD",
  .eguarded "SIGPWR" "SIGPWR",
  .eguarded "SIGINFO" "SIGINFO",
  .eguarded "SIGLOST" "SIGLOST",
  .eguarded "SIGWINCH" "SIGWINCH",
  .eguarded "SIGUNUSED" "SIGUNUSED"]

/-- Lines 537-835 of `main`: everything written after the `siginfo_t` size
checks. -/
def items3 : List Emit := items3a ++ items3b ++ items3c

/-- All emission steps of a complete run, in source order. -/
def allItems : List Emit := items1 ++ items2 ++ items3

/-- The `struct timeval`/`struct timespec` consistency checks of
`gendeps.c` lines 256-267, in source order, returning the message passed to
`error` at the first failing check.  A check fails when the field's probed
storage size or signedness differs from `time_t`, or when the field's byte
offset is nonzero. -/
def timeChecks (p : Platform) : Option String :=
  if (p.fieldType "struct timeval" "tv_sec").size ≠ (p.ctype "time_t").size ∨
     (p.fieldType "struct timeval" "tv_sec").signed ≠ (p.ctype "time_t").signed then
    some "Field `tv_sec` in `struct timeval` is not of type `time_t`"
  else if p.offsetOf "struct timeval" "tv_sec" ≠ 0 then
    some "Field `tv_sec` in `struct timeval` is not the first one"
  else if (p.fieldType "struct timespec" "tv_sec").size ≠ (p.ctype "time_t").size ∨
     (p.fieldType "struct timespec" "tv_sec").signed ≠ (p.ctype "time_t").signed then
    some "Field `tv_sec` in `struct timespec` is not of type `time_t`"
  else if p.offsetOf "struct timespec" "tv_sec" ≠ 0 then
    some "Field `tv_sec` in `struct timespec` is not the first one"
  else
    none

/-- The `siginfo_t` member-size checks of `gendeps.c` lines 488-536, in
source order, returning the message printed to the diagnostic stream at the
first failing check. -/
def siginfoChecks (p : Platform) : Option String :=
  if (p.fieldType "siginfo_t" "si_signo").size ≠ (p.ctype "int").size then
    some "sizeof((siginfo_t).si_signo) != sizeof(int)"
  else if (p.fieldType "siginfo_t" "si_code").size ≠ (p.ctype "int").size then
    some "sizeof((siginfo_t).si_code) != sizeof(int)"
  else if (p.fieldType "siginfo_t" "si_errno").size ≠ (p.ctype "int").size then
    some "sizeof((siginfo_t).si_errno) != sizeof(int)"
  else if (p.fieldType "siginfo_t" "si_pid").size ≠ (p.ctype "pid_t").size then
    some "sizeof((siginfo_t).si_pid) != sizeof(pid_t)"
  else if (p.fieldType "siginfo_t" "si_uid").size ≠ (p.ctype "uid_t").size then
    some "sizeof((siginfo_t).si_uid) != sizeof(uid_t)"
  else if (p.fieldType "siginfo_t" "si_status").size ≠ (p.ctype "int").size then
    some "sizeof((siginfo_t).si_status) != sizeof(int)"
  else if (p.fieldType "siginfo_t" "si_value").size ≠ p.sizeOf "sigval_t" then
    some "sizeof((siginfo_t).si_value) != sizeof(sigval_t)"
  else if (p.fieldType "siginfo_t" "si_addr").size ≠ p.sizeOf "void*" then
    some "sizeof((siginfo_t).si_addr) != sizeof(void*)"
  else if (p.fieldType "siginfo_t" "si_band").size ≠ (p.ctype "long").size then
    some "sizeof((siginfo_t).si_band) != sizeof(long)"
  else
    none

/-- Observable result of one run of a generator process: its exit status,
the lines written to the output stream (standard output) and the lines
written to the diagnostic stream (standard error). -/
structure RunResult where
  status : Int
  out : List Jline
  err : List String
deriving DecidableEq, Repr

/-- The generation phase of `main` in `gendeps.c` (lines 145-836, after
argument handling): emit the catalog in source order; at the time-field
checks, call `error` (which prints `error: <mesg>` to the diagnostic stream
and exits with status 1) on the first violated relationship; at the
`siginfo_t` checks, print the failed relationship and exit with status 1.
All output emitted before a failing check has already been written to the
output stream when the process halts. -/
def gendepsGen (p : Platform) : RunResult :=
  match timeChecks p with
  | some msg => ⟨1, items1.flatMap (render p), ["error: " ++ msg]⟩
  | none =>
    match siginfoChecks p with
    | some msg =>
      ⟨1, items1.flatMap (render p) ++ items2.flatMap (render p), [msg]⟩
    | none =>
      ⟨0, items1.flatMap (render p) ++ items2.flatMap (render p) ++
        items3.flatMap (render p), []⟩

/-- The usage line printed by `main` (line 138), with `prog` standing for
`argv[0]`. -/
def usageLine (prog : String) : String :=
  "Usage: " ++ prog ++ " [--help|-h]"

/-- `main` of `gendeps.c`: argument handling (lines 130-143) followed by the
generation phase.  `args` is `argv[1..]`. -/
def gendepsMain (prog : String) (args : List String) (p : Platform) :
    RunResult :=
  match args with
  | [a] =>
    if a = "--help" ∨ a = "-h" then ⟨0, [], [usageLine prog]⟩
    else ⟨1, [], [usageLine prog]⟩
  | [] => gendepsGen p
  | _ => ⟨1, [], [usageLine prog]⟩

/-- A host as seen by the generator process: the platform facts it actually
queries, together with process-visible state it could in principle read but
never does (the environment block and the current time).  Used to state
that the output depends on nothing but the platform. -/
structure Host where
  plat : Platform
  environment : List (String × String)
  now : Nat

/-- A full run of the generator on a host. -/
def gendepsRun (prog : String) (args : List String) (h : Host) : RunResult :=
  gendepsMain prog args h.plat

/-! ### A concrete platform (typical x86-64 Linux/glibc values)

Used to evaluate the model on concrete inputs.  Note that `SEMVMX`,
`SEMMNI`, `SEMMSL`, `SEMMNS`, `SEMOPM` and `SEMAEM` are not defined by the
glibc headers. -/

/-- Macro names defined by the headers of the concrete platform. -/
def linuxDefines : List String := [
  "SHM_EXEC", "_SC_SEM_VALUE_MAX", "SEM_VALUE_MAX",
  "CLOCK_REALTIME", "CLOCK_MONOTONIC",
  "SIGRTMIN", "SIGRTMAX", "SIG_BLOCK", "SIG_UNBLOCK", "SIG_SETMASK",
  "SI_USER", "SI_KERNEL", "SI_QUEUE", "SI_TIMER", "SI_MESGQ",
  "SI_ASYNCIO", "SI_SIGIO", "SI_TKILL",
  "ILL_ILLOPC", "ILL_ILLOPN", "ILL_ILLADR", "ILL_ILLTRP",
  "ILL_PRVOPC", "ILL_PRVREG", "ILL_COPROC", "ILL_BADSTK",
  "FPE_INTDIV", "FPE_INTOVF", "FPE_FLTDIV", "FPE_FLTOVF",
  "FPE_FLTUND", "FPE_FLTRES", "FPE_FLTINV", "FPE_FLTSUB",
  "SEGV_MAPERR", "SEGV_ACCERR",
  "BUS_ADRALN", "BUS_ADRERR", "BUS_OBJERR",
  "BUS_MCEERR_AR", "BUS_MCEERR_AO",
  "TRAP_BRKPT", "TRAP_TRACE", "TRAP_BRANCH", "TRAP_HWBKPT",
  "CLD_EXITED", "CLD_KILLED", "CLD_DUMPED", "CLD_TRAPPED",
  "CLD_STOPPED", "CLD_CONTINUED",
  "POLL_IN", "POLL_OUT", "POLL_MSG", "POLL_ERR", "POLL_PRI", "POLL_HUP",
  "SYS_SECCOMP",
  "SIGHUP", "SIGINT", "SIGQUIT", "SIGILL", "SIGABRT", "SIGFPE",
  "SIGKILL", "SIGSEGV", "SIGPIPE", "SIGALRM", "SIGTERM",
  "SIGCHLD", "SIGCONT", "SIGSTOP", "SIGTSTP", "SIGTTIN", "SIGTTOU",
  "SIGBUS", "SIGPOLL", "SIGPROF", "SIGSYS", "SIGTRAP", "SIGURG",
  "SIGVTALRM", "SIGXCPU", "SIGXFSZ", "SIGIOT", "SIGSTKFLT", "SIGIO",
  "SIGCLD", "SIGPWR", "SIGWINCH", "SIGUNUSED"]

/-- All-bits-set probes of the named C types on the concrete platform. -/
def linuxCtypes : List (String × CType) := [
  ("time_t", ⟨8, true⟩), ("clock_t", ⟨8, true⟩), ("size_t", ⟨8, false⟩),
  ("ssize_t", ⟨8, true⟩), ("mode_t", ⟨4, false⟩), ("dev_t", ⟨8, false⟩),
  ("ino_t", ⟨8, false⟩), ("pid_t", ⟨4, true⟩), ("uid_t", ⟨4, false⟩),
  ("gid_t", ⟨4, false⟩), ("key_t", ⟨4, true⟩), ("nlink_t", ⟨8, false⟩),
  ("shmatt_t", ⟨8, false⟩), ("off_t", ⟨8, true⟩), ("blksize_t", ⟨8, true⟩),
  ("blkcnt_t", ⟨8, true⟩), ("clockid_t", ⟨4, true⟩),
  ("int", ⟨4, true⟩), ("long", ⟨8, true⟩)]

/-- All-bits-set probes of struct field lvalues on the concrete platform.
Note `sa_flags` is a plain `int`, hence probes as signed. -/
def linuxFieldTypes : List ((String × String) × CType) := [
  (("struct timeval", "tv_sec"), ⟨8, true⟩),
  (("struct timeval", "tv_usec"), ⟨8, true⟩),
  (("struct timespec", "tv_sec"), ⟨8, true⟩),
  (("struct timespec", "tv_nsec"), ⟨8, true⟩),
  (("struct shmid_ds", "shm_segsz"), ⟨8, false⟩),
  (("struct shmid_ds", "shm_perm.mode"), ⟨4, false⟩),
  (("struct semid_ds", "sem_nsems"), ⟨8, false⟩),
  (("struct semid_ds", "sem_perm.mode"), ⟨4, false⟩),
  (("struct sembuf", "sem_num"), ⟨2, false⟩),
  (("struct sembuf", "sem_op"), ⟨2, true⟩),
  (("struct sembuf", "sem_flg"), ⟨2, true⟩),
  (("struct sigaction", "sa_flags"), ⟨4, true⟩),
  (("siginfo_t", "si_signo"), ⟨4, true⟩),
  (("siginfo_t", "si_code"), ⟨4, true⟩),
  (("siginfo_t", "si_errno"), ⟨4, true⟩),
  (("siginfo_t", "si_pid"), ⟨4, true⟩),
  (("siginfo_t", "si_uid"), ⟨4, false⟩),
  (("siginfo_t", "si_status"), ⟨4, true⟩),
  (("siginfo_t", "si_value"), ⟨8, true⟩),
  (("siginfo_t", "si_addr"), ⟨8, false⟩),
  (("siginfo_t", "si_band"), ⟨8, true⟩)]

/-- Sizes of named types on the concrete platform. -/
def linuxSizes : List (String × Nat) := [
  ("pthread_mutex_t", 40), ("pthread_mutexattr_t", 4),
  ("pthread_cond_t", 48), ("pthread_condattr_t", 4),
  ("pthread_rwlock_t", 56), ("pthread_rwlockattr_t", 8),
  ("struct stat", 144), ("struct shmid_ds", 112), ("struct semid_ds", 104),
  ("struct sembuf", 6), ("sem_t", 32), ("sigset_t", 128),
  ("sigval_t", 8), ("siginfo_t", 128), ("void*", 8),
  ("struct sigaction", 152)]

/-- The concrete platform. -/
def linuxPlatform : Platform where
  defines := fun n => linuxDefines.contains n
  constVal := fun _ => 0
  ctype := fun n => (linuxCtypes.lookup n).getD ⟨4, true⟩
  fieldType := fun s f => (linuxFieldTypes.lookup (s, f)).getD ⟨4, true⟩
  offsetOf := fun _ _ => 0
  sizeOf := fun n => (linuxSizes.lookup n).getD 8
  pagesize := 4096
  semValueMax := 32000

/-- The concrete platform with the `tv_sec` field of `struct timeval` at a
nonzero byte offset (the end-to-end scenario of the specification: the
seconds field declared second). -/
def badOffsetPlatform : Platform :=
  { linuxPlatform with
    offsetOf := fun s f =>
      if s = "struct timeval" ∧ f = "tv_sec" then 8
      else linuxPlatform.offsetOf s f }

/-- The concrete platform with an oversized `si_signo` member, so that
every time-field check passes but a `siginfo_t` size check fails. -/
def sigBadPlatform : Platform :=
  { linuxPlatform with
    fieldType := fun s f =>
      if s = "siginfo_t" ∧ f = "si_signo" then ⟨8, true⟩
      else linuxPlatform.fieldType s f }

/-- The catalog constants whose emission is guarded by an `#ifdef` on their
own name.  Not listed: `SHM_REMAP` (guarded by `SHM_EXEC`), `SIGUSR1` and
`SIGUSR2` (guarded by `SIGUSR`), and the three fallback constants
`CLOCK_REALTIME`, `CLOCK_MONOTONIC` and `SEMVMX` whose lines are always
emitted. -/
def optionalCatalog : List String := [
  "SHM_EXEC",
  "SEMMNI", "SEMMSL", "SEMMNS", "SEMOPM", "SEMAEM",
  "SIGRTMIN", "SIGRTMAX", "SIG_BLOCK", "SIG_UNBLOCK", "SIG_SETMASK",
  "SI_USER", "SI_KERNEL", "SI_QUEUE", "SI_TIMER", "SI_MESGQ",
  "SI_ASYNCIO", "SI_SIGIO", "SI_TKILL",
  "ILL_ILLOPC", "ILL_ILLOPN", "ILL_ILLADR", "ILL_ILLTRP",
  "ILL_PRVOPC", "ILL_PRVREG", "ILL_COPROC", "ILL_BADSTK",
  "FPE_INTDIV", "FPE_INTOVF", "FPE_FLTDIV", "FPE_FLTOVF",
  "FPE_FLTUND", "FPE_FLTRES", "FPE_FLTINV", "FPE_FLTSUB",
  "SEGV_MAPERR", "SEGV_ACCERR",
  "BUS_ADRALN", "BUS_ADRERR", "BUS_OBJERR",
  "BUS_MCEERR_AR", "BUS_MCEERR_AO",
  "TRAP_BRKPT", "TRAP_TRACE", "TRAP_BRANCH", "TRAP_HWBKPT",
  "CLD_EXITED", "CLD_KILLED", "CLD_DUMPED", "CLD_TRAPPED",
  "CLD_STOPPED", "CLD_CONTINUED",
  "POLL_IN", "POLL_OUT", "POLL_MSG", "POLL_ERR", "POLL_PRI", "POLL_HUP",
  "SYS_SECCOMP",
  "SIGHUP", "SIGINT", "SIGQUIT", "SIGILL", "SIGABRT", "SIGFPE",
  "SIGKILL", "SIGSEGV", "SIGPIPE", "SIGALRM", "SIGTERM",
  "SIGCHLD", "SIGCONT", "SIGSTOP", "SIGTSTP", "SIGTTIN", "SIGTTOU",
  "SIGBUS", "SIGPOLL", "SIGPROF", "SIGSYS", "SIGTRAP", "SIGURG",
  "SIGVTALRM", "SIGXCPU", "SIGXFSZ", "SIGIOT", "SIGEMT", "SIGSTKFLT",
  "SIGIO", "SIGCLD", "SIGPWR", "SIGINFO", "SIGLOST", "SIGWINCH",
  "SIGUNUSED"]

/-- No emission step of the run can produce a `const <name> = ...` line for
`name` other than through an `#ifdef` on `name` itself. -/
def noUnguardedEmit (name : String) : Bool :=
  allItems.all fun e =>
    match e with
    | .econst n => n != name
    | .eguarded g n => n != name || g == name
    | .efallback n _ => n != name
    | .epagesize => name != "PAGE_SIZE"
    | .esemvaluemax => name != "SEM_VALUE_MAX"
    | _ => true

end IPC

namespace SWL

/-! ## The SWL shared-memory wrappers (`src/swl/src/ipc.c`)

The System V calls (`shmat`, `shmdt`, `shmctl`) are modelled by an oracle
describing their outcome for the identifier at hand: `shmat` either yields
an address or fails, `shmctl(IPC_STAT)` either yields the kernel descriptor
`struct shmid_ds` or fails, `shmctl(IPC_SET)` either succeeds or fails. -/

/-- `SWL_SUCCESS` from `swl.h`. -/
def SWL_SUCCESS : Int := 0

/-- `SWL_FAILURE` from `swl.h`. -/
def SWL_FAILURE : Int := -1

/-- `MODE_MASK` from `ipc.c`: the low nine permission bits. -/
def MODE_MASK : Nat := 0o777

/-- The 32-bit unsigned complement `~MODE_MASK` used on line 113 of
`ipc.c` (`MODE_MASK` is an `unsigned int` literal). -/
def MODE_MASK_NOT : Nat := (2 ^ 32 - 1) ^^^ MODE_MASK

/-- The `ipc_perm` part of the kernel descriptor. -/
structure ShmPerm where
  uid : Nat
  gid : Nat
  cuid : Nat
  cgid : Nat
  mode : Nat
deriving DecidableEq, Repr

/-- The kernel `struct shmid_ds` fields read or written by the wrappers. -/
structure ShmDS where
  perm : ShmPerm
  segsz : Nat
  atime : Int
  dtime : Int
  ctime : Int
  cpid : Int
  lpid : Int
  nattch : Nat
deriving DecidableEq, Repr

/-- `SWL_SharedMemoryInfo` from `swl.h`. -/
structure SharedMemoryInfo where
  atime : Int
  dtime : Int
  ctime : Int
  segsz : Nat
  id : Int
  cpid : Int
  lpid : Int
  nattch : Nat
  mode : Nat
  uid : Nat
  gid : Nat
  cuid : Nat
  cgid : Nat
deriving DecidableEq, Repr

/-- Result of `SWL_QuerySharedMemoryInfo`: the returned status and, when the
caller passed a non-null `info` pointer that the function wrote through, the
contents written. -/
structure QueryResult where
  ret : Int
  info : Option SharedMemoryInfo
deriving DecidableEq, Repr

/-- `SWL_QuerySharedMemoryInfo` (`ipc.c` lines 80-103).  `stat` is the
outcome of `shmctl(id, IPC_STAT, &ds)` (`none` models a `-1` return) and
`infoProvided` tells whether the `info` pointer is non-null.  Note line 100
of the source: `info->cgid = ds.shm_perm.cuid`. -/
def querySharedMemoryInfo (id : Int) (stat : Option ShmDS)
    (infoProvided : Bool) : QueryResult :=
  match stat with
  | none => ⟨SWL_FAILURE, none⟩
  | some ds =>
    if infoProvided then
      ⟨SWL_SUCCESS, some {
        atime := ds.atime
        dtime := ds.dtime
        ctime := ds.ctime
        id := id
        cpid := ds.cpid
        lpid := ds.lpid
        segsz := ds.segsz
        nattch := ds.nattch
        mode := ds.perm.mode
        uid := ds.perm.uid
        gid := ds.perm.gid
        cuid := ds.perm.cuid
        cgid := ds.perm.cuid }⟩
    else
      ⟨SWL_SUCCESS, none⟩

/-- Result of `SWL_AttachSharedMemory`: the returned address (`none` models
the `(void*)-1` failure return), the info contents written (if any), and
the address `shmdt` was called on (if any). -/
structure AttachResult where
  ret : Option Nat
  info : Option SharedMemoryInfo
  detachedPtr : Option Nat
deriving DecidableEq, Repr

/-- `SWL_AttachSharedMemory` (`ipc.c` lines 54-68).  `shmatRes` is the
outcome of `shmat(id, NULL, shmflg)` (`none` models `(void*)-1`), `stat`
the outcome of the `shmctl(id, IPC_STAT, ...)` performed by the nested
query, and `infoProvided` whether the `info` pointer is non-null. -/
def attachSharedMemory (shmatRes : Option Nat) (stat : Option ShmDS)
    (id : Int) (infoProvided : Bool) : AttachResult :=
  match shmatRes with
  | none => ⟨none, none, none⟩
  | some ptr =>
    if infoProvided then
      let q := querySharedMemoryInfo id stat true
      if q.ret ≠ SWL_SUCCESS then ⟨none, q.info, some ptr⟩
      else ⟨some ptr, q.info, none⟩
    else ⟨some ptr, none, none⟩

/-- Result of `SWL_ConfigureSharedMemory`: the returned status, the kernel
descriptor after the call (`none` when even `IPC_STAT` failed, so that no
descriptor was observed), and whether an `IPC_SET` operation was issued. -/
structure ConfigResult where
  ret : Int
  finalDS : Option ShmDS
  setIssued : Bool
deriving DecidableEq, Repr

/-- `SWL_ConfigureSharedMemory` (`ipc.c` lines 105-119).  `stat` is the
outcome of `shmctl(id, IPC_STAT, &ds)`; `setOk` tells whether a
`shmctl(id, IPC_SET, &ds)` call would succeed.  When `IPC_SET` is issued
and succeeds, the kernel descriptor becomes the structure passed to it;
when it fails or is never issued, the descriptor stays as observed. -/
def configureSharedMemory (stat : Option ShmDS) (setOk : Bool)
    (flg : Nat) : ConfigResult :=
  match stat with
  | none => ⟨SWL_FAILURE, none, false⟩
  | some ds =>
    if ds.perm.mode &&& MODE_MASK ≠ flg &&& MODE_MASK then
      let ds' := { ds with perm := { ds.perm with
        mode := (ds.perm.mode &&& MODE_MASK_NOT) ||| (flg &&& MODE_MASK) } }
      if setOk then ⟨SWL_SUCCESS, some ds', true⟩
      else ⟨SWL_FAILURE, some ds, true⟩
    else
      ⟨SWL_SUCCESS, some ds, false⟩

/-- A concrete kernel descriptor whose creator user id and creator group id
differ. -/
def dsExample : ShmDS where
  perm := { uid := 10, gid := 20, cuid := 1000, cgid := 2000, mode := 0o640 }
  segsz := 4096
  atime := 101
  dtime := 102
  ctime := 103
  cpid := 111
  lpid := 222
  nattch := 1

end SWL

/-! ## Theorems -/

namespace IPC

/-- Claim C2: for every byte size, the blob decomposition `setofbits`
produces a tiling whose element count times element width (in bytes)
equals the byte size exactly, whose element width in bytes is the largest
of 8, 4, 2, 1 that divides the size evenly, and whose signedness is the
one requested by the caller; in particular a 16-byte opaque type yields
2 unsigned 64-bit elements (never 16 one-byte or 4 four-byte elements). -/
theorem setofbits_tiling (size : Nat) (u : Bool) :
    (setofbits size u).nitems * ((setofbits size u).nbits / 8) = size ∧
    (setofbits size u).nbits / 8 ∈ [8, 4, 2, 1] ∧
    size % ((setofbits size u).nbits / 8) = 0 ∧
    (∀ w ∈ [8, 4, 2, 1], size % w = 0 → w ≤ (setofbits size u).nbits / 8) ∧
    (setofbits size u).isunsigned = u ∧
    setofbits 16 true = ⟨2, 64, true⟩ := by
  by_cases h1 : size % 8 = 0
  · simp only [setofbits, if_pos h1]
    refine ⟨by omega, by decide, by omega, ?_, by trivial, by decide⟩
    intro w hw hdvd
    simp at hw
    rcases hw with h | h | h | h <;> subst h <;> omega
  · by_cases h2 : size % 4 = 0
    · simp only [setofbits, if_neg h1, if_pos h2]
      refine ⟨by omega, by decide, by omega, ?_, by trivial, by decide⟩
      intro w hw hdvd
      simp at hw
      rcases hw with h | h | h | h <;> subst h <;> omega
    · by_cases h3 : size % 2 = 0
      · simp only [setofbits, if_neg h1, if_neg h2, if_pos h3]
        refine ⟨by omega, by decide, by omega, ?_, by trivial, by decide⟩
        intro w hw hdvd
        simp at hw
        rcases hw with h | h | h | h <;> subst h <;> omega
      · simp only [setofbits, if_neg h1, if_neg h2, if_neg h3]
        refine ⟨by omega, by decide, by omega, ?_, by trivial, by decide⟩
        intro w hw hdvd
        simp at hw
        rcases hw with h | h | h | h <;> subst h <;> omega

/-- Witness for `setofbits_tiling` at the 16-byte scenario. -/
theorem setofbits_tiling_witness :
    (setofbits 16 true).nitems * ((setofbits 16 true).nbits / 8) = 16 ∧
    setofbits 16 true = ⟨2, 64, true⟩ :=
  ⟨(setofbits_tiling 16 true).1, (setofbits_tiling 16 true).2.2.2.2.2⟩

end IPC

namespace SWL

/-- Claim C6 (code bug): `SWL_QuerySharedMemoryInfo` fills `info->cgid`
from `ds.shm_perm.cuid` instead of `ds.shm_perm.cgid` (`ipc.c` line 100),
contradicting the header's documentation of `cgid` as the effective group
id of the creator.  Evaluated at a descriptor whose creator user id (1000)
and creator group id (2000) differ: the query succeeds, fills every other
field from the descriptor, but reports `cgid = 1000`. -/
theorem query_info_cgid_copies_cuid :
    (querySharedMemoryInfo 7 (some dsExample) true).ret = SWL_SUCCESS ∧
    (querySharedMemoryInfo 7 (some dsExample) true).info = some {
      atime := 101, dtime := 102, ctime := 103, segsz := 4096, id := 7,
      cpid := 111, lpid := 222, nattch := 1, mode := 0o640,
      uid := 10, gid := 20, cuid := 1000, cgid := 1000 } ∧
    dsExample.perm.cuid = 1000 ∧ dsExample.perm.cgid = 2000 := by
  refine ⟨by decide, by decide, by decide, by decide⟩

/-- Claim C9: whenever `SWL_AttachSharedMemory` is called with a non-null
`info` pointer, (a) if it returns the failure address after a successful
attach, `shmdt` has been called on the attached address, (b) a success
return always comes with a filled info structure, and (c) in the specific
scenario where the attach succeeds but the metadata query fails, the
function detaches the segment, writes no info, and returns failure. -/
theorem attach_failure_detaches (shmatRes : Option Nat) (stat : Option ShmDS)
    (id : Int) :
    (∀ ptr, shmatRes = some ptr →
      (attachSharedMemory shmatRes stat id true).ret = none →
      (attachSharedMemory shmatRes stat id true).detachedPtr = some ptr) ∧
    (∀ a, (attachSharedMemory shmatRes stat id true).ret = some a →
      (attachSharedMemory shmatRes stat id true).info.isSome) ∧
    (∀ ptr, shmatRes = some ptr → stat = none →
      (attachSharedMemory shmatRes stat id true).ret = none ∧
      (attachSharedMemory shmatRes stat id true).info = none ∧
      (attachSharedMemory shmatRes stat id true).detachedPtr = some ptr) := by
  cases stat <;> cases shmatRes <;>
    simp [attachSharedMemory, querySharedMemoryInfo, SWL_SUCCESS, SWL_FAILURE]

/-- Witness for `attach_failure_detaches` at a concrete input: attach
yields address 4096, the metadata query fails. -/
theorem attach_failure_detaches_witness :
    (attachSharedMemory (some 4096) none 3 true).ret = none ∧
    (attachSharedMemory (some 4096) none 3 true).info = none ∧
    (attachSharedMemory (some 4096) none 3 true).detachedPtr = some 4096 :=
  (attach_failure_detaches (some 4096) none 3).2.2 4096 rfl rfl

end SWL

namespace SWL

/-- Bit `i` of `MODE_MASK` is set exactly for the nine low bits. -/
theorem mode_mask_testBit (i : Nat) :
    MODE_MASK.testBit i = decide (i < 9) := by
  have h : MODE_MASK = 2 ^ 9 - 1 := by decide
  rw [h, Nat.testBit_two_pow_sub_one]

/-- Bit `i` of the 32-bit complement of `MODE_MASK`. -/
theorem mode_mask_not_testBit (i : Nat) :
    MODE_MASK_NOT.testBit i = (decide (i < 32) ^^ decide (i < 9)) := by
  unfold MODE_MASK_NOT
  rw [Nat.testBit_xor, Nat.testBit_two_pow_sub_one, mode_mask_testBit]

/-- The mode update of `SWL_ConfigureSharedMemory` sets the low nine bits
to those of the flag word. -/
theorem mode_update_low (m f : Nat) :
    ((m &&& MODE_MASK_NOT) ||| (f &&& MODE_MASK)) &&& MODE_MASK =
      f &&& MODE_MASK := by
  apply Nat.eq_of_testBit_eq
  intro i
  simp only [Nat.testBit_land, Nat.testBit_lor, mode_mask_not_testBit,
    mode_mask_testBit]
  by_cases h9 : i < 9
  · have h32 : i < 32 := by omega
    simp [h9, h32]
  · simp [h9]

/-- The mode update of `SWL_ConfigureSharedMemory` leaves the bits above
the nine-bit mask unchanged, provided the stored mode fits in the 32-bit
`unsigned int` arithmetic the C code performs. -/
theorem mode_update_high (m f : Nat) (hm : m < 2 ^ 32) :
    ((m &&& MODE_MASK_NOT) ||| (f &&& MODE_MASK)) >>> 9 = m >>> 9 := by
  apply Nat.eq_of_testBit_eq
  intro i
  rw [Nat.testBit_shiftRight, Nat.testBit_shiftRight]
  simp only [Nat.testBit_land, Nat.testBit_lor, mode_mask_not_testBit,
    mode_mask_testBit]
  have h9 : ¬ (9 + i < 9) := by omega
  by_cases h32 : 9 + i < 32
  · simp [h32, h9]
  · have hz : m.testBit (9 + i) = false :=
      Nat.testBit_lt_two_pow
        (lt_of_lt_of_le hm (Nat.pow_le_pow_right (by norm_num) (by omega)))
    simp [h32, h9, hz]

/-- Claim C10: `SWL_ConfigureSharedMemory` changes at most the low nine
permission bits of the segment mode, setting them to the low nine bits of
the flag word while every other descriptor field and every mode bit above
the mask keeps its value; and when the current low nine mode bits already
equal the requested ones it issues no `IPC_SET` operation at all and
returns `SWL_SUCCESS` with the descriptor untouched. -/
theorem configure_mode_frame (ds : ShmDS) (setOk : Bool) (flg : Nat)
    (hm : ds.perm.mode < 2 ^ 32) :
    (∀ ds', (configureSharedMemory (some ds) setOk flg).finalDS = some ds' →
      ds'.segsz = ds.segsz ∧ ds'.atime = ds.atime ∧ ds'.dtime = ds.dtime ∧
      ds'.ctime = ds.ctime ∧ ds'.cpid = ds.cpid ∧ ds'.lpid = ds.lpid ∧
      ds'.nattch = ds.nattch ∧ ds'.perm.uid = ds.perm.uid ∧
      ds'.perm.gid = ds.perm.gid ∧ ds'.perm.cuid = ds.perm.cuid ∧
      ds'.perm.cgid = ds.perm.cgid ∧
      ds'.perm.mode >>> 9 = ds.perm.mode >>> 9 ∧
      (ds'.perm.mode &&& MODE_MASK = flg &&& MODE_MASK ∨ ds' = ds)) ∧
    (ds.perm.mode &&& MODE_MASK = flg &&& MODE_MASK →
      configureSharedMemory (some ds) setOk flg =
        ⟨SWL_SUCCESS, some ds, false⟩) := by
  constructor
  · intro ds' hds'
    simp only [configureSharedMemory] at hds'
    split_ifs at hds' with hne hok
    · have hds : ds' = { ds with perm := { ds.perm with
          mode := (ds.perm.mode &&& MODE_MASK_NOT) ||| (flg &&& MODE_MASK) } } := by
        have := hds'
        simp only [Option.some.injEq] at this
        exact this.symm
      subst hds
      refine ⟨rfl, rfl, rfl, rfl, rfl, rfl, rfl, rfl, rfl, rfl, rfl,
        mode_update_high _ _ hm, Or.inl (mode_update_low _ _)⟩
    · have hds : ds' = ds := by
        have := hds'
        simp only [Option.some.injEq] at this
        exact this.symm
      subst hds
      exact ⟨rfl, rfl, rfl, rfl, rfl, rfl, rfl, rfl, rfl, rfl, rfl, rfl,
        Or.inr rfl⟩
    · have hds : ds' = ds := by
        have := hds'
        simp only [Option.some.injEq] at this
        exact this.symm
      subst hds
      exact ⟨rfl, rfl, rfl, rfl, rfl, rfl, rfl, rfl, rfl, rfl, rfl, rfl,
        Or.inr rfl⟩
  · intro h
    simp [configureSharedMemory, h]

/-- Witness for `configure_mode_frame`: the descriptor `dsExample` already
carries mode `0o640`, so configuring with flag `0o640` issues no set
operation. -/
theorem configure_mode_frame_witness :
    configureSharedMemory (some dsExample) true 0o640 =
      ⟨SWL_SUCCESS, some dsExample, false⟩ :=
  (configure_mode_frame dsExample true 0o640 (by decide)).2 (by decide)

end SWL

namespace IPC

/-- The first line written by the generation phase is the opening comment
line of the file header. -/
theorem part1_head (p : Platform) :
    (items1.flatMap (render p)).head? = some (.text "#") := rfl

/-- The output written before the time-field checks is never empty. -/
theorem part1_ne_nil (p : Platform) : items1.flatMap (render p) ≠ [] := by
  intro hc
  have h := part1_head p
  rw [hc] at h
  exact Option.noConfusion h

/-- The generation phase always writes at least the file header before any
check can fail. -/
theorem gen_out_ne_nil (p : Platform) : (gendepsGen p).out ≠ [] := by
  have h := part1_ne_nil p
  unfold gendepsGen
  cases timeChecks p with
  | some msg => exact h
  | none =>
    cases siginfoChecks p with
    | some msg =>
      intro hc
      exact h (List.append_eq_nil.mp hc).1
    | none =>
      intro hc
      exact h (List.append_eq_nil.mp (List.append_eq_nil.mp hc).1).1

/-- Claim C7: a single `--help` or `-h` argument prints the usage line on
the diagnostic stream, writes no declaration lines, and exits with
status 0; any other argument vector (other than the empty one) prints the
same usage line, writes no declaration lines, and exits with status 1;
with no arguments the generator produces output. -/
theorem usage_handling (prog : String) (p : Platform) :
    (∀ a, (a = "--help" ∨ a = "-h") →
      gendepsMain prog [a] p = ⟨0, [], [usageLine prog]⟩) ∧
    (∀ args, args ≠ [] → args ≠ ["--help"] → args ≠ ["-h"] →
      gendepsMain prog args p = ⟨1, [], [usageLine prog]⟩) ∧
    (gendepsMain prog [] p).out ≠ [] := by
  refine ⟨?_, ?_, ?_⟩
  · rintro a (rfl | rfl) <;> simp [gendepsMain]
  · intro args hne h1 h2
    match args with
    | [] => exact absurd rfl hne
    | [a] =>
      have ha1 : a ≠ "--help" := fun h => h1 (by rw [h])
      have ha2 : a ≠ "-h" := fun h => h2 (by rw [h])
      simp [gendepsMain, ha1, ha2]
    | a :: b :: rest => rfl
  · exact gen_out_ne_nil p

/-- Witness for `usage_handling` at concrete inputs. -/
theorem usage_handling_witness :
    gendepsMain "gendeps" ["--help"] linuxPlatform =
      ⟨0, [], [usageLine "gendeps"]⟩ ∧
    gendepsMain "gendeps" ["-x"] linuxPlatform =
      ⟨1, [], [usageLine "gendeps"]⟩ ∧
    (gendepsMain "gendeps" [] linuxPlatform).out ≠ [] :=
  ⟨(usage_handling "gendeps" linuxPlatform).1 "--help" (Or.inl rfl),
   (usage_handling "gendeps" linuxPlatform).2.1 ["-x"]
     (by decide) (by decide) (by decide),
   (usage_handling "gendeps" linuxPlatform).2.2⟩

/-- Claim C8: the generator is deterministic — its observable result is a
pure function of the platform facts (type system, header constants and
runtime queries); two runs on hosts that agree on those facts produce
identical exit status, output stream and diagnostic stream, whatever the
rest of the host state (environment block, clock) is. -/
theorem generator_deterministic (prog : String) (args : List String)
    (h1 h2 : Host) (hp : h1.plat = h2.plat) :
    gendepsRun prog args h1 = gendepsRun prog args h2 := by
  unfold gendepsRun
  rw [hp]

/-- Witness for `generator_deterministic`: two hosts with the same platform
but different environments and clocks. -/
theorem generator_deterministic_witness :
    gendepsRun "gendeps" [] ⟨linuxPlatform, [("HOME", "/root")], 42⟩ =
    gendepsRun "gendeps" [] ⟨linuxPlatform, [], 7⟩ :=
  generator_deterministic "gendeps" [] _ _ rfl

/-- Claim C1 (amended): when a time-field invariant check fails, the run
halts with status 1, reports the violated relationship on the diagnostic
stream, and writes nothing to the output stream after the failed check —
but the catalog facts emitted before the check (file header, type aliases,
constants) have already been written, so the output stream is not empty. -/
theorem invariant_violation_halts (prog : String) (p : Platform)
    (msg : String) (h : timeChecks p = some msg) :
    (gendepsMain prog [] p).status = 1 ∧
    (gendepsMain prog [] p).err = ["error: " ++ msg] ∧
    (gendepsMain prog [] p).out = items1.flatMap (render p) ∧
    (gendepsMain prog [] p).out ≠ [] := by
  have hne := part1_ne_nil p
  unfold gendepsMain gendepsGen
  rw [h]
  exact ⟨rfl, rfl, rfl, hne⟩

/-- Witness for `invariant_violation_halts`: the platform whose
`struct timeval` has its seconds field at byte offset 8. -/
theorem invariant_violation_halts_witness :
    (gendepsMain "gendeps" [] badOffsetPlatform).status = 1 ∧
    (gendepsMain "gendeps" [] badOffsetPlatform).err =
      ["error: Field `tv_sec` in `struct timeval` is not the first one"] ∧
    (gendepsMain "gendeps" [] badOffsetPlatform).out =
      items1.flatMap (render badOffsetPlatform) ∧
    (gendepsMain "gendeps" [] badOffsetPlatform).out ≠ [] :=
  invariant_violation_halts "gendeps" badOffsetPlatform
    "Field `tv_sec` in `struct timeval` is not the first one" (by decide)

/-- Counterexample to claim C1 as stated: on the platform whose seconds
field sits at a nonzero offset the run does halt with a non-success status
and a diagnostic, but the output stream is not empty — the facts emitted
before the check were already written. -/
theorem halt_partial_output_cex :
    (gendepsMain "gendeps" [] badOffsetPlatform).status ≠ 0 ∧
    (gendepsMain "gendeps" [] badOffsetPlatform).err =
      ["error: Field `tv_sec` in `struct timeval` is not the first one"] ∧
    (gendepsMain "gendeps" [] badOffsetPlatform).out ≠ [] := by
  refine ⟨by decide, by decide, ?_⟩
  exact (invariant_violation_halts "gendeps" badOffsetPlatform
    "Field `tv_sec` in `struct timeval` is not the first one" (by decide)).2.2.2

end IPC

namespace IPC

/-- Lines written before the time-field checks appear in the output of
every generation run. -/
theorem mem_part1_out (p : Platform) (l : Jline)
    (hl : l ∈ items1.flatMap (render p)) : l ∈ (gendepsGen p).out := by
  unfold gendepsGen
  cases timeChecks p with
  | some m => exact hl
  | none =>
    cases siginfoChecks p with
    | some m => exact List.mem_append_left _ hl
    | none => exact List.mem_append_left _ (List.mem_append_left _ hl)

/-- Lines written between the time-field checks and the `siginfo_t` checks
appear in the output of every run whose time-field checks pass. -/
theorem mem_part2_out (p : Platform) (h : timeChecks p = none) (l : Jline)
    (hl : l ∈ items2.flatMap (render p)) : l ∈ (gendepsGen p).out := by
  unfold gendepsGen
  rw [h]
  cases siginfoChecks p with
  | some m => exact List.mem_append_right _ hl
  | none => exact List.mem_append_left _ (List.mem_append_right _ hl)

/-- Every output line of a generation run comes from rendering one of the
emission steps of the source. -/
theorem out_subset_all (p : Platform) (l : Jline)
    (h : l ∈ (gendepsGen p).out) : ∃ e ∈ allItems, l ∈ render p e := by
  have hsub : l ∈ allItems.flatMap (render p) := by
    unfold allItems
    rw [List.flatMap_append, List.flatMap_append]
    unfold gendepsGen at h
    cases htc : timeChecks p with
    | some m =>
      rw [htc] at h
      exact List.mem_append_left _ (List.mem_append_left _ h)
    | none =>
      rw [htc] at h
      cases hsc : siginfoChecks p with
      | some m =>
        rw [hsc] at h
        exact List.mem_append_left _ h
      | none =>
        rw [hsc] at h
        exact h
  exact List.mem_flatMap.mp hsub

/-- Claim C3 (amended): the time-field section of the generator aborts if
and only if the `tv_sec` field of `struct timeval` or of `struct timespec`
differs from `time_t` in storage size or signedness or sits at a nonzero
byte offset; when all four checks pass, the probed type aliases for the
seconds and sub-second fields of both structures are emitted.  (The
generator may still abort later, in the `siginfo_t` size checks.) -/
theorem time_field_checks (p : Platform) :
    (timeChecks p = none ↔
      ((p.fieldType "struct timeval" "tv_sec").size = (p.ctype "time_t").size ∧
       (p.fieldType "struct timeval" "tv_sec").signed = (p.ctype "time_t").signed ∧
       p.offsetOf "struct timeval" "tv_sec" = 0 ∧
       (p.fieldType "struct timespec" "tv_sec").size = (p.ctype "time_t").size ∧
       (p.fieldType "struct timespec" "tv_sec").signed = (p.ctype "time_t").signed ∧
       p.offsetOf "struct timespec" "tv_sec" = 0)) ∧
    (timeChecks p = none →
      probeAlias "timeval_sec" (p.fieldType "struct timeval" "tv_sec")
        ∈ (gendepsGen p).out ∧
      probeAlias "timeval_usec" (p.fieldType "struct timeval" "tv_usec")
        ∈ (gendepsGen p).out ∧
      probeAlias "timespec_sec" (p.fieldType "struct timespec" "tv_sec")
        ∈ (gendepsGen p).out ∧
      probeAlias "timespec_nsec" (p.fieldType "struct timespec" "tv_nsec")
        ∈ (gendepsGen p).out) := by
  constructor
  · unfold timeChecks
    split_ifs with h1 h2 h3 h4 <;> simp <;> tauto
  · intro h
    have m1 : probeAlias "timeval_sec" (p.fieldType "struct timeval" "tv_sec")
        ∈ items2.flatMap (render p) :=
      List.mem_flatMap.mpr ⟨.eprobe "timeval_sec" (.fld "struct timeval" "tv_sec"),
        by decide, by simp [render, lookupProbe]⟩
    have m2 : probeAlias "timeval_usec" (p.fieldType "struct timeval" "tv_usec")
        ∈ items2.flatMap (render p) :=
      List.mem_flatMap.mpr ⟨.eprobe "timeval_usec" (.fld "struct timeval" "tv_usec"),
        by decide, by simp [render, lookupProbe]⟩
    have m3 : probeAlias "timespec_sec" (p.fieldType "struct timespec" "tv_sec")
        ∈ items2.flatMap (render p) :=
      List.mem_flatMap.mpr ⟨.eprobe "timespec_sec" (.fld "struct timespec" "tv_sec"),
        by decide, by simp [render, lookupProbe]⟩
    have m4 : probeAlias "timespec_nsec" (p.fieldType "struct timespec" "tv_nsec")
        ∈ items2.flatMap (render p) :=
      List.mem_flatMap.mpr ⟨.eprobe "timespec_nsec" (.fld "struct timespec" "tv_nsec"),
        by decide, by simp [render, lookupProbe]⟩
    exact ⟨mem_part2_out p h _ m1, mem_part2_out p h _ m2,
      mem_part2_out p h _ m3, mem_part2_out p h _ m4⟩

/-- Witness for `time_field_checks` on the concrete platform (all four
checks pass and the aliases are emitted). -/
theorem time_field_checks_witness :
    probeAlias "timeval_sec" (linuxPlatform.fieldType "struct timeval" "tv_sec")
      ∈ (gendepsGen linuxPlatform).out ∧
    probeAlias "timespec_nsec" (linuxPlatform.fieldType "struct timespec" "tv_nsec")
      ∈ (gendepsGen linuxPlatform).out :=
  ⟨((time_field_checks linuxPlatform).2 (by decide)).1,
   ((time_field_checks linuxPlatform).2 (by decide)).2.2.2⟩

/-- Counterexample to claim C3 as stated: on a platform where the `tv_sec`
fields of both time structures agree with `time_t` in size and signedness
and sit at offset 0, the generator nevertheless aborts with an error —
here because `si_signo` of `siginfo_t` fails its size check — so passing
the four time-field checks is not equivalent to a successful run. -/
theorem time_checks_pass_still_aborts_cex :
    ((sigBadPlatform.fieldType "struct timeval" "tv_sec").size =
      (sigBadPlatform.ctype "time_t").size ∧
     (sigBadPlatform.fieldType "struct timeval" "tv_sec").signed =
      (sigBadPlatform.ctype "time_t").signed ∧
     sigBadPlatform.offsetOf "struct timeval" "tv_sec" = 0 ∧
     (sigBadPlatform.fieldType "struct timespec" "tv_sec").size =
      (sigBadPlatform.ctype "time_t").size ∧
     (sigBadPlatform.fieldType "struct timespec" "tv_sec").signed =
      (sigBadPlatform.ctype "time_t").signed ∧
     sigBadPlatform.offsetOf "struct timespec" "tv_sec" = 0) ∧
    (gendepsMain "gendeps" [] sigBadPlatform).status = 1 ∧
    (gendepsMain "gendeps" [] sigBadPlatform).err =
      ["sizeof((siginfo_t).si_signo) != sizeof(int)"] := by
  refine ⟨by decide, by decide, by decide⟩

end IPC

namespace IPC

/-- Classification of the emission steps that can produce a constant
definition line: an unguarded `DEF_CONST`, a guarded `DEF_CONST` whose
guard is defined, a fallback `DEF_CONST`, the page-size line, or the
`SEM_VALUE_MAX` line. -/
theorem render_constInt (p : Platform) (e : Emit) (n : String) (v : Int)
    (h : Jline.constInt n v ∈ render p e) :
    e = .econst n ∨ (∃ g, e = .eguarded g n ∧ p.defines g = true) ∨
    (∃ d, e = .efallback n d) ∨ (e = .epagesize ∧ n = "PAGE_SIZE") ∨
    (e = .esemvaluemax ∧ n = "SEM_VALUE_MAX") := by
  cases e with
  | etext s => simp [render] at h
  | econst m =>
    simp [render] at h
    exact Or.inl (by rw [h.1])
  | eprobe lbl src => simp [render, probeAlias] at h
  | eoffset a b c => simp [render] at h
  | esize a b => simp [render] at h
  | eguarded g m =>
    cases hg : p.defines g with
    | false => simp [render, hg] at h
    | true =>
      simp [render, hg] at h
      exact Or.inr (Or.inl ⟨g, by rw [h.1], hg⟩)
  | efallback m d =>
    simp [render] at h
    exact Or.inr (Or.inr (Or.inl ⟨d, by rw [h.1]⟩))
  | epagesize =>
    simp [render] at h
    exact Or.inr (Or.inr (Or.inr (Or.inl ⟨rfl, h.1⟩)))
  | esemvaluemax =>
    simp only [render] at h
    split at h
    · simp at h
      exact Or.inr (Or.inr (Or.inr (Or.inr ⟨rfl, h.1⟩)))
    · simp at h
  | esigval => simp [render] at h
  | esaflags => simp [render] at h
  | ebits a b u => simp [render, setofbitsLine] at h
  | eguardtext g s =>
    cases hg : p.defines g with
    | false => simp [render, hg] at h
    | true => simp [render, hg] at h

set_option maxRecDepth 4000 in
/-- Claim C4 (amended): for every catalog constant that is guarded by an
`#ifdef` on its own name, if the platform headers do not define the
symbol, no constant definition line with that name appears anywhere in
the emitted output.  (The fallback constants `CLOCK_REALTIME`,
`CLOCK_MONOTONIC` and `SEMVMX` are always emitted, with built-in values
0, 1 and 32767 when the platform does not define them.) -/
theorem undefined_guarded_constant_absent (p : Platform) (name : String)
    (hmem : name ∈ optionalCatalog) (hdef : p.defines name = false)
    (v : Int) : Jline.constInt name v ∉ (gendepsGen p).out := by
  intro hin
  obtain ⟨e, he, hr⟩ := out_subset_all p _ hin
  have hcat : optionalCatalog.all noUnguardedEmit = true := by decide
  have hok : noUnguardedEmit name = true :=
    List.all_eq_true.mp hcat name hmem
  unfold noUnguardedEmit at hok
  have hpred := List.all_eq_true.mp hok e he
  rcases render_constInt p e name v hr with
    he1 | ⟨g, he1, hg⟩ | ⟨d, he1⟩ | ⟨he1, hn⟩ | ⟨he1, hn⟩
  · subst he1
    simp at hpred
  · subst he1
    simp at hpred
    rw [hpred] at hg
    rw [hg] at hdef
    exact Bool.noConfusion hdef
  · subst he1
    simp at hpred
  · subst he1
    subst hn
    simp at hpred
  · subst he1
    subst hn
    simp at hpred

/-- Witness for `undefined_guarded_constant_absent`: `SEMMNI` is not
defined on the concrete platform, so no `SEMMNI` line is emitted. -/
theorem undefined_guarded_constant_absent_witness :
    Jline.constInt "SEMMNI" 0 ∉ (gendepsGen linuxPlatform).out :=
  undefined_guarded_constant_absent linuxPlatform "SEMMNI"
    (by decide) (by decide) 0

/-- Counterexample to claim C4 as stated: the concrete platform does not
define `SEMVMX`, yet the emitted output carries a `SEMVMX` line with the
built-in fallback value 32767 (`gendeps.c` lines 358-363). -/
theorem semvmx_fallback_emitted_cex :
    linuxPlatform.defines "SEMVMX" = false ∧
    Jline.constInt "SEMVMX" 32767 ∈
      (gendepsMain "gendeps" [] linuxPlatform).out := by
  refine ⟨by decide, ?_⟩
  exact mem_part2_out linuxPlatform (by decide) _
    (List.mem_flatMap.mpr ⟨.efallback "SEMVMX" 32767, by decide, by decide⟩)

end IPC

namespace IPC

/-- Claim C5 (amended): every type alias line emitted by the generator,
except the two aliases `_typeof_sigval_t` (fixed signed) and
`_typeof_sigaction_flags` (forced unsigned), comes from an all-bits-set
probe of a named type or struct field: its reported signedness is the
probe's comparison result and its reported width is eight times the
probed storage size. -/
theorem alias_signedness_from_probe (p : Platform) (l : Jline)
    (hl : l ∈ (gendepsGen p).out) (n : String) (s : Bool) (b : Nat)
    (heq : l = .typeAlias n s b) (h1 : n ≠ "sigval_t")
    (h2 : n ≠ "sigaction_flags") :
    ∃ src, Emit.eprobe n src ∈ allItems ∧
      s = (lookupProbe p src).signed ∧ b = 8 * (lookupProbe p src).size := by
  subst heq
  obtain ⟨e, he, hr⟩ := out_subset_all p _ hl
  cases e with
  | etext t => simp [render] at hr
  | econst m => simp [render] at hr
  | eprobe lbl src =>
    simp [render, probeAlias] at hr
    obtain ⟨hn, hs, hb⟩ := hr
    subst hn
    exact ⟨src, he, hs, hb⟩
  | eoffset a c d => simp [render] at hr
  | esize a c => simp [render] at hr
  | eguarded g m =>
    cases hg : p.defines g with
    | false => simp [render, hg] at hr
    | true => simp [render, hg] at hr
  | efallback m d => simp [render] at hr
  | epagesize => simp [render] at hr
  | esemvaluemax =>
    simp only [render] at hr
    split at hr <;> simp at hr
  | esigval =>
    simp [render] at hr
    exact absurd hr.1 h1
  | esaflags =>
    simp [render] at hr
    exact absurd hr.1 h2
  | ebits a c u => simp [render, setofbitsLine] at hr
  | eguardtext g t =>
    cases hg : p.defines g with
    | false => simp [render, hg] at hr
    | true => simp [render, hg] at hr

/-- Witness for `alias_signedness_from_probe`: the `time_t` alias on the
concrete platform records the probe result, signed with 64 bits. -/
theorem alias_signedness_from_probe_witness :
    ∃ src, Emit.eprobe "time_t" src ∈ allItems ∧
      true = (lookupProbe linuxPlatform src).signed ∧
      64 = 8 * (lookupProbe linuxPlatform src).size :=
  alias_signedness_from_probe linuxPlatform (.typeAlias "time_t" true 64)
    (mem_part1_out linuxPlatform _
      (List.mem_flatMap.mpr ⟨.eprobe "time_t" (.ty "time_t"),
        by decide, by decide⟩))
    "time_t" true 64 rfl (by decide) (by decide)

/-- Counterexample to claim C5 as stated: on the concrete platform the
all-bits-set probe of the `sa_flags` lvalue reports a signed type, yet the
emitted `_typeof_sigaction_flags` alias is unconditionally unsigned
(`gendeps.c` lines 468-470) — its signedness is fixed by assumption, not
by the probe.  (`_typeof_sigval_t` is likewise fixed signed without a
probe, lines 451-452.) -/
theorem saflags_signedness_not_probed_cex :
    (linuxPlatform.fieldType "struct sigaction" "sa_flags").signed = true ∧
    Jline.typeAlias "sigaction_flags" false 32 ∈
      (gendepsMain "gendeps" [] linuxPlatform).out := by
  refine ⟨by decide, ?_⟩
  exact mem_part2_out linuxPlatform (by decide) _
    (List.mem_flatMap.mpr ⟨.esaflags, by decide, by decide⟩)

end IPC
